import Mathlib

/-!
# Verification of `OptionSet` (include/swift/Basic/OptionSet.h)

A shallow embedding of the C++ class template `swift::OptionSet<Flags,
StorageType>`.  The storage type is an unsigned integral type; we model it
as a natural number below `2 ^ w`, where `w` is the bit width of
`StorageType`.  Each member function of the class is translated to a Lean
definition operating on that representation; casts of a wider value into
the storage type are modelled by `% 2 ^ w`.
-/

/-- `OptionSet<Flags, StorageType>` for a `StorageType` of bit width `w`:
a single field `Storage` holding the underlying unsigned value.  The
representation invariant `Storage < 2 ^ w` is carried as a hypothesis of
the theorems that need it rather than as a field. -/
structure OptionSet (w : Nat) where
  Storage : Nat
deriving DecidableEq, Repr

namespace OptionSet

/-- `OptionSet() : Storage() { }` — the default constructor value-initialises
the storage to `0` (the empty option set). -/
def empty (w : Nat) : OptionSet w := ⟨0⟩

/-- `OptionSet(Flags flag) : Storage(static_cast<StorageType>(flag)) { }` —
the enumerator's value cast into the storage type (`% 2 ^ w`). -/
def fromFlag (w : Nat) (flag : Nat) : OptionSet w := ⟨flag % 2 ^ w⟩

/-- `explicit OptionSet(StorageType storage) : Storage(storage) { }` — the
argument is a value of the storage type, hence reduced `% 2 ^ w`. -/
def fromRaw (w : Nat) (storage : Nat) : OptionSet w := ⟨storage % 2 ^ w⟩

/-- `explicit operator bool() const { return Storage != 0; }` -/
def toBool {w : Nat} (s : OptionSet w) : Bool := s.Storage != 0

/-- `explicit operator StorageType() const { return Storage; }` -/
def toRaw {w : Nat} (s : OptionSet w) : Nat := s.Storage

/-- `operator|(lhs, rhs) { return OptionSet(lhs.Storage | rhs.Storage); }` -/
def union {w : Nat} (lhs rhs : OptionSet w) : OptionSet w :=
  ⟨lhs.Storage ||| rhs.Storage⟩

/-- `operator&(lhs, rhs) { return OptionSet(lhs.Storage & rhs.Storage); }` -/
def inter {w : Nat} (lhs rhs : OptionSet w) : OptionSet w :=
  ⟨lhs.Storage &&& rhs.Storage⟩

/-- `operator~(set) { return OptionSet(~set.Storage); }` — bitwise NOT over
the full width of the storage type, i.e. XOR with the all-ones pattern
`2 ^ w - 1`. -/
def compl {w : Nat} (s : OptionSet w) : OptionSet w :=
  ⟨(2 ^ w - 1) ^^^ s.Storage⟩

/-- `operator-(lhs, rhs) { return OptionSet(lhs.Storage & ~rhs.Storage); }` -/
def diff {w : Nat} (lhs rhs : OptionSet w) : OptionSet w :=
  ⟨lhs.Storage &&& ((2 ^ w - 1) ^^^ rhs.Storage)⟩

/-- `bool contains(OptionSet set) const { return static_cast<bool>(*this & set); }` —
note: this converts the *intersection* to `bool`, i.e. it tests whether the
intersection is non-empty (any overlap), not whether `set` is a subset. -/
def contains {w : Nat} (s other : OptionSet w) : Bool :=
  (s.inter other).toBool

end OptionSet

/-! ## Claim theorems -/

/-- Claim C1: the spec says `x.contains(y)` is true iff `(x & y) == y`.
The code instead returns `static_cast<bool>(*this & set)`, a non-empty
*overlap* test.  At `x = fromFlag(Read) = {1}` and `y = fromRaw(3) =
{Read, Write}` the code returns `true` although `(x & y) == y` is false,
contradicting the function's own doc comment ("contains all of the
options in the given set"). -/
theorem c1_contains_overlap_not_subset :
    OptionSet.contains (OptionSet.fromFlag 8 1) (OptionSet.fromRaw 8 3) = true ∧
    OptionSet.inter (OptionSet.fromFlag 8 1) (OptionSet.fromRaw 8 3) ≠
      OptionSet.fromRaw 8 3 := by
  decide

/-- Claim C2: the spec says `x.contains(x)` is true for all `x`, including
the empty set.  The code computes `static_cast<bool>(x & x)`, which is
`false` when `x` is empty, contradicting the doc comment of `contains`. -/
theorem c2_contains_empty_not_reflexive :
    OptionSet.contains (OptionSet.empty 8) (OptionSet.empty 8) = false := by
  decide

/-- Claim C3: with enumerators `Read = 1`, `Write = 2`, `Execute = 4` over an
8-bit storage type, `fromFlag Read | fromFlag Write` has raw value 3,
contains `fromFlag Read`, does not contain `fromFlag Execute`, and
`(Read|Write) - Write` has raw value 1 and equals `fromFlag Read`. -/
theorem c3_concrete_read_write_execute :
    OptionSet.toRaw (OptionSet.union (OptionSet.fromFlag 8 1) (OptionSet.fromFlag 8 2)) = 3 ∧
    OptionSet.contains (OptionSet.union (OptionSet.fromFlag 8 1) (OptionSet.fromFlag 8 2))
      (OptionSet.fromFlag 8 1) = true ∧
    OptionSet.contains (OptionSet.union (OptionSet.fromFlag 8 1) (OptionSet.fromFlag 8 2))
      (OptionSet.fromFlag 8 4) = false ∧
    OptionSet.toRaw (OptionSet.diff
      (OptionSet.union (OptionSet.fromFlag 8 1) (OptionSet.fromFlag 8 2))
      (OptionSet.fromFlag 8 2)) = 1 ∧
    OptionSet.diff (OptionSet.union (OptionSet.fromFlag 8 1) (OptionSet.fromFlag 8 2))
      (OptionSet.fromFlag 8 2) = OptionSet.fromFlag 8 1 := by
  decide

/-- Claim C4, counterexample: the claim says the boolean conversion returns
true iff `storage == 0`; but `operator bool` returns `Storage != 0`, so on
the empty set (storage 0) it returns `false`. -/
theorem c4_bool_conversion_counterexample :
    OptionSet.toBool (OptionSet.empty 8) = false ∧
    (OptionSet.empty 8).Storage = 0 := by
  decide

/-- Claim C4, amended: the boolean conversion returns true iff
`storage != 0` (it tests non-emptiness); the emptiness test is its
negation, true iff `storage == 0`; in particular the negated conversion
is true on `empty()` and false on `fromFlag(Read)`. -/
theorem c4_bool_conversion_amended (w : Nat) (x : OptionSet w) :
    (x.toBool = true ↔ x.Storage ≠ 0) ∧
    ((!x.toBool) = true ↔ x.Storage = 0) ∧
    (!(OptionSet.empty 8).toBool) = true ∧
    (!(OptionSet.fromFlag 8 1).toBool) = false := by
  refine ⟨?_, ?_, by decide, by decide⟩ <;> simp [OptionSet.toBool]

/-- Claim C5: union (`operator|`) is commutative and associative, and the
empty set is its identity. -/
theorem c5_union_comm_assoc_identity (w : Nat) (x y z : OptionSet w) :
    x.union y = y.union x ∧
    (x.union y).union z = x.union (y.union z) ∧
    (OptionSet.empty w).union x = x := by
  obtain ⟨xs⟩ := x
  obtain ⟨ys⟩ := y
  obtain ⟨zs⟩ := z
  refine ⟨?_, ?_, ?_⟩
  · simp [OptionSet.union, Nat.or_comm]
  · simp [OptionSet.union, Nat.or_assoc]
  · simp [OptionSet.union, OptionSet.empty, Nat.zero_or]

/-- Claim C6: intersection (`operator&`) is commutative and associative, and
the empty set is its absorbing element. -/
theorem c6_inter_comm_assoc_absorbing (w : Nat) (x y z : OptionSet w) :
    x.inter y = y.inter x ∧
    (x.inter y).inter z = x.inter (y.inter z) ∧
    (OptionSet.empty w).inter x = OptionSet.empty w := by
  obtain ⟨xs⟩ := x
  obtain ⟨ys⟩ := y
  obtain ⟨zs⟩ := z
  refine ⟨?_, ?_, ?_⟩
  · simp [OptionSet.inter, Nat.and_comm]
  · simp [OptionSet.inter, Nat.and_assoc]
  · simp [OptionSet.inter, OptionSet.empty, Nat.zero_and]

/-- Claim C7: self-difference is the empty set: `x - x == empty()`, where
`operator-` computes `lhs.Storage & ~rhs.Storage`. -/
theorem c7_diff_self_empty (w : Nat) (x : OptionSet w)
    (h : x.Storage < 2 ^ w) :
    x.diff x = OptionSet.empty w := by
  obtain ⟨xs⟩ := x
  simp only [OptionSet.diff, OptionSet.empty, OptionSet.mk.injEq]
  apply Nat.eq_of_testBit_eq
  intro i
  simp only [Nat.testBit_and, Nat.testBit_xor, Nat.testBit_two_pow_sub_one,
    Nat.zero_testBit]
  by_cases hi : i < w
  · cases hx : xs.testBit i <;> simp [hi, hx]
  · have hx : xs.testBit i = false :=
      Nat.testBit_lt_two_pow (lt_of_lt_of_le h
        (Nat.pow_le_pow_right (by norm_num) (Nat.le_of_not_lt hi)))
    simp [hi, hx]

/-- Witness for C7 at the concrete set `{Read, Execute}` (raw 5, width 8). -/
theorem c7_diff_self_empty_witness :
    (OptionSet.mk 5 : OptionSet 8).Storage < 2 ^ 8 ∧
    (OptionSet.mk 5 : OptionSet 8).diff (OptionSet.mk 5) = OptionSet.empty 8 :=
  ⟨by decide, c7_diff_self_empty 8 (OptionSet.mk 5) (by decide)⟩

/-- Claim C8: `x | ~x` is the all-ones bit pattern of the full width of the
storage type, and for an 8-bit storage type `~empty()` has raw value 255. -/
theorem c8_union_compl_all_ones (w : Nat) (x : OptionSet w)
    (h : x.Storage < 2 ^ w) :
    x.union x.compl = OptionSet.fromRaw w (2 ^ w - 1) ∧
    OptionSet.toRaw (OptionSet.compl (OptionSet.empty 8)) = 255 := by
  obtain ⟨xs⟩ := x
  refine ⟨?_, by decide⟩
  have hmask : (2 ^ w - 1) % 2 ^ w = 2 ^ w - 1 :=
    Nat.mod_eq_of_lt (Nat.sub_lt (Nat.two_pow_pos w) (by norm_num))
  simp only [OptionSet.union, OptionSet.compl, OptionSet.fromRaw, hmask,
    OptionSet.mk.injEq]
  apply Nat.eq_of_testBit_eq
  intro i
  simp only [Nat.testBit_or, Nat.testBit_xor, Nat.testBit_two_pow_sub_one]
  by_cases hi : i < w
  · cases hx : xs.testBit i <;> simp [hi, hx]
  · have hx : xs.testBit i = false :=
      Nat.testBit_lt_two_pow (lt_of_lt_of_le h
        (Nat.pow_le_pow_right (by norm_num) (Nat.le_of_not_lt hi)))
    simp [hi, hx]

/-- Witness for C8 at the concrete set with raw value 5 (width 8). -/
theorem c8_union_compl_all_ones_witness :
    (OptionSet.mk 5 : OptionSet 8).Storage < 2 ^ 8 ∧
    ((OptionSet.mk 5 : OptionSet 8).union (OptionSet.mk 5 : OptionSet 8).compl =
        OptionSet.fromRaw 8 (2 ^ 8 - 1) ∧
      OptionSet.toRaw (OptionSet.compl (OptionSet.empty 8)) = 255) :=
  ⟨by decide, c8_union_compl_all_ones 8 (OptionSet.mk 5) (by decide)⟩

/-- Claim C9: raw round-trip — `fromRaw(x.toRaw()).toRaw() == x.toRaw()` for
every option set `x` of width `w`, and `toRaw(fromRaw(b)) == b` for every
raw bit pattern `b` of the storage type. -/
theorem c9_raw_roundtrip (w : Nat) (x : OptionSet w) (b : Nat)
    (hx : x.Storage < 2 ^ w) (hb : b < 2 ^ w) :
    OptionSet.toRaw (OptionSet.fromRaw w x.toRaw) = x.toRaw ∧
    OptionSet.toRaw (OptionSet.fromRaw w b) = b := by
  constructor <;>
    simp [OptionSet.fromRaw, OptionSet.toRaw, Nat.mod_eq_of_lt hx,
      Nat.mod_eq_of_lt hb]

/-- Witness for C9 at the concrete storage value 77 and raw pattern 200. -/
theorem c9_raw_roundtrip_witness :
    (OptionSet.mk 77 : OptionSet 8).Storage < 2 ^ 8 ∧ 200 < 2 ^ 8 ∧
    (OptionSet.toRaw (OptionSet.fromRaw 8 (OptionSet.mk 77 : OptionSet 8).toRaw) =
        (OptionSet.mk 77 : OptionSet 8).toRaw ∧
      OptionSet.toRaw (OptionSet.fromRaw 8 200) = 200) :=
  ⟨by decide, by decide,
    c9_raw_roundtrip 8 (OptionSet.mk 77) 200 (by decide) (by decide)⟩

/-- Claim C10: as implemented, `contains` is symmetric — it tests whether the
intersection is non-empty, and intersection is commutative, so
`x.contains(y)` always equals `y.contains(x)`. -/
theorem c10_contains_symm (w : Nat) (x y : OptionSet w) :
    x.contains y = y.contains x := by
  obtain ⟨xs⟩ := x
  obtain ⟨ys⟩ := y
  simp [OptionSet.contains, OptionSet.inter, OptionSet.toBool, Nat.and_comm]
